import Mathlib

set_option maxHeartbeats 1000000

namespace DagsterSpec

/-!
Shallow embedding of the dagit CLI server-start logic
(src/python_modules/dagit/dagit/cli.py) and of the Run Launcher /
Monitor orchestration core described by the specification (whose
K8sRunLauncher implementation is not among the sampled sources; only its
integration test, src/integration_tests/.../test_executor.py, is).
-/

/-- Outcome of constructing and serving the WSGI server on a given port
(`server.serve_forever()` inside the `try` of `start_server`,
cli.py lines 174-186): either it serves, or it raises an `OSError`
whose message contains "Address already in use", or it raises some
other `OSError`. -/
inductive ServeOutcome where
  | ok
  | addrInUse
  | otherOSError
deriving DecidableEq

/-- Final outcome of a `start_server` activation (cli.py lines 173-216):
served successfully on a port, raised the "Another process ... is already
listening on port" exception for a port, re-raised a non-address-in-use
OSError at a port, or the observation fuel ran out with the recursion
still going (the Python recursion itself has no depth bound). -/
inductive SSOutcome where
  | served (port : Nat)
  | raisedPortConflict (port : Nat)
  | raisedOther (port : Nat)
  | outOfFuel
deriving DecidableEq

/-- Observable trace of one `start_server` activation: the ports tried by
the recursion in order (outermost call first), how many times the user was
prompted via `click.confirm` (cli.py line 190), and the final outcome. -/
structure SSTrace where
  ports : List Nat
  prompts : Nat
  outcome : SSOutcome
deriving DecidableEq

/-- cli.py line 28. -/
def DEFAULT_DAGIT_PORT : Nat := 3000

/-- `start_server` from cli.py lines 173-216, embedded over an environment
`serve : Nat → ServeOutcome` giving the result of binding each port, and
`confirm : Bool` giving the user's answer to the `click.confirm` prompt.
The last three arguments are `port_lookup`, `port` and
`port_lookup_attempts`; the first `Nat` argument is fuel bounding the
recursion depth we observe (the Python function has no such bound).
On an address-in-use error with `port_lookup` enabled, the code increments
`port_lookup_attempts` and re-invokes itself at `port +
port_lookup_attempts` (cli.py lines 197-206), prompting the user only when
`port_lookup_attempts` was 0 (the `port_lookup_attempts > 0 or
click.confirm(...)` short-circuit on lines 188-196); otherwise it raises. -/
def start_server (serve : Nat → ServeOutcome) (confirm : Bool) :
    Nat → Bool → Nat → Nat → SSTrace
  | 0, _, _, _ => ⟨[], 0, SSOutcome.outOfFuel⟩
  | fuel + 1, port_lookup, port, attempts =>
    match serve port with
    | ServeOutcome.ok => ⟨[port], 0, SSOutcome.served port⟩
    | ServeOutcome.otherOSError => ⟨[port], 0, SSOutcome.raisedOther port⟩
    | ServeOutcome.addrInUse =>
      if port_lookup then
        if 0 < attempts then
          let r := start_server serve confirm fuel true (port + (attempts + 1)) (attempts + 1)
          ⟨port :: r.ports, r.prompts, r.outcome⟩
        else if confirm then
          let r := start_server serve confirm fuel true (port + 1) 1
          ⟨port :: r.ports, r.prompts + 1, r.outcome⟩
        else
          ⟨[port], 1, SSOutcome.raisedPortConflict port⟩
      else
        ⟨[port], 0, SSOutcome.raisedPortConflict port⟩

/-- Port resolution of the `ui` command (cli.py lines 92-102): when no
`--port` option is supplied, `port_lookup` is enabled and the port
defaults to `DEFAULT_DAGIT_PORT`; when a port is supplied explicitly,
`port_lookup` is disabled. Returns the pair `(port_lookup, port)` that
`ui` passes on to `host_dagit_ui`. -/
def ui (portOption : Option Nat) : Bool × Nat :=
  match portOption with
  | none => (true, DEFAULT_DAGIT_PORT)
  | some p => (false, p)

/-- Environment in which every port is already in use. -/
def alwaysInUse : Nat → ServeOutcome := fun _ => ServeOutcome.addrInUse

/-- Triangular numbers: the cumulative port offset after k retries of
`start_server`, since the k-th retry adds k to the previous port. -/
def triangle : Nat → Nat
  | 0 => 0
  | k + 1 => triangle k + (k + 1)

theorem two_mul_triangle (k : Nat) : 2 * triangle k = k * (k + 1) := by
  induction k with
  | zero => rfl
  | succ k ih =>
    simp only [triangle, Nat.mul_add, ih]
    ring

theorem triangle_eq (k : Nat) : triangle k = k * (k + 1) / 2 := by
  have h := two_mul_triangle k
  generalize k * (k + 1) = m at h ⊢
  omega

theorem start_server_conflict_ports (f : Nat) : ∀ q a : Nat,
    (start_server alwaysInUse true f true q (a + 1)).ports
      = (List.range f).map (fun k => q + (k * (a + 1) + triangle k)) := by
  induction f with
  | zero => intro q a; simp [start_server]
  | succ f ih =>
    intro q a
    have h := ih (q + (a + 1 + 1)) (a + 1)
    simp only [start_server, alwaysInUse, Nat.succ_pos, if_pos, Nat.zero_lt_succ, if_true, h]
    rw [List.range_succ_eq_map, List.map_cons, List.map_map]
    have hfun : (fun k => q + (a + 1 + 1) + (k * (a + 1 + 1) + triangle k))
        = ((fun k => q + (k * (a + 1) + triangle k)) ∘ Nat.succ) := by
      funext k
      simp only [Function.comp_apply, Nat.succ_eq_add_one, triangle]
      ring
    simp only [triangle, Nat.mul_zero, Nat.zero_mul, Nat.add_zero, hfun]

theorem start_server_conflict_outOfFuel (f : Nat) : ∀ q a : Nat,
    (start_server alwaysInUse true f true q (a + 1)).outcome = SSOutcome.outOfFuel := by
  induction f with
  | zero => intro q a; rfl
  | succ f ih =>
    intro q a
    simp only [start_server, alwaysInUse, Nat.zero_lt_succ, if_true]
    exact ih (q + (a + 1 + 1)) (a + 1)

theorem start_server_prompts_pos_attempts (serve : Nat → ServeOutcome) (c : Bool)
    (f : Nat) : ∀ q a : Nat, (start_server serve c f true q (a + 1)).prompts = 0 := by
  induction f with
  | zero => intro q a; rfl
  | succ f ih =>
    intro q a
    cases h : serve q with
    | ok => simp [start_server, h]
    | otherOSError => simp [start_server, h]
    | addrInUse =>
      simp only [start_server, h, Nat.zero_lt_succ, if_true]
      exact ih (q + (a + 1 + 1)) (a + 1)

/-- C8: with port lookup enabled (and the user confirming the first retry),
`start_server` reacts to an "Address already in use" OSError by re-invoking
itself with an incremented attempt count, and the recursion is unbounded:
when every bind attempt conflicts, for every observation depth n the
recursion is still running after n nested activations (outcome is
out-of-fuel) and has tried exactly n ports, one per activation. -/
theorem start_server_unbounded_retry (n p : Nat) :
    (start_server alwaysInUse true n true p 0).outcome = SSOutcome.outOfFuel
    ∧ (start_server alwaysInUse true n true p 0).ports.length = n := by
  cases n with
  | zero => exact ⟨rfl, rfl⟩
  | succ f =>
    constructor
    · simp only [start_server, alwaysInUse, Nat.lt_irrefl, if_false, if_true]
      exact start_server_conflict_outOfFuel f (p + 1) 0
    · simp only [start_server, alwaysInUse, Nat.lt_irrefl, if_false, if_true,
        start_server_conflict_ports f (p + 1) 0]
      simp

/-- C9: when `start_server` is first called with port p and attempt count 0
and every bind attempt fails with "Address already in use" under enabled
port lookup (user confirming the first retry), the k-th attempt tries port
p + k*(k+1)/2 — the ports tried are p, p+1, p+3, p+6, ... rather than the
consecutive ports p+1, p+2, p+3 — because the recursive call passes both
the already-incremented port and the incremented attempt count. -/
theorem start_server_port_sequence (n p : Nat) :
    (start_server alwaysInUse true n true p 0).ports
      = (List.range n).map (fun k => p + k * (k + 1) / 2) := by
  have htri : (fun k => p + k * (k + 1) / 2) = (fun k => p + triangle k) := by
    funext k
    rw [triangle_eq]
  rw [htri]
  cases n with
  | zero => simp [start_server]
  | succ f =>
    simp only [start_server, alwaysInUse, Nat.lt_irrefl, if_false, if_true,
      start_server_conflict_ports f (p + 1) 0]
    rw [List.range_succ_eq_map, List.map_cons, List.map_map]
    have hfun : (fun k => p + 1 + (k * (0 + 1) + triangle k))
        = ((fun k => p + triangle k) ∘ Nat.succ) := by
      funext k
      simp only [Function.comp_apply, Nat.succ_eq_add_one, triangle]
      ring
    simp only [triangle, Nat.add_zero, hfun]

/-- C10: the `ui` command enables automatic port fallback only when no
--port option is supplied, defaulting the port to 3000 with port_lookup
true; with an explicit port, port_lookup is false and an address-in-use
conflict makes `start_server` raise its port-conflict exception without
trying any other port; and when fallback is enabled the `click.confirm`
prompt happens at most once, only before the first retry — an activation
whose attempt count is already positive never prompts. -/
theorem ui_port_lookup_policy (p fuel q a : Nat) (serve : Nat → ServeOutcome) (c : Bool) :
    ui none = (true, 3000)
    ∧ ui (some p) = (false, p)
    ∧ start_server alwaysInUse c (fuel + 1) false q a
        = ⟨[q], 0, SSOutcome.raisedPortConflict q⟩
    ∧ (start_server serve c fuel true q 0).prompts ≤ 1
    ∧ (start_server serve c fuel true q (a + 1)).prompts = 0 := by
  refine ⟨rfl, rfl, by simp [start_server, alwaysInUse], ?_, start_server_prompts_pos_attempts serve c fuel q a⟩
  cases fuel with
  | zero => exact Nat.zero_le 1
  | succ f =>
    cases h : serve q with
    | ok => simp [start_server, h]
    | otherOSError => simp [start_server, h]
    | addrInUse =>
      cases c with
      | false => simp [start_server, h]
      | true =>
        simp only [start_server, h, Nat.lt_irrefl, if_false, if_true,
          start_server_prompts_pos_attempts serve true f (q + 1) 0]
        exact Nat.le_refl 1

/-- Modelled from the spec: the run status state machine (§3) —
NOT_STARTED → STARTING → STARTED → {SUCCESS | FAILURE | CANCELED}, with
CANCELING reachable from STARTING/STARTED en route to CANCELED. The Run
Store implementation is not among the sampled sources. -/
inductive RunStatus where
  | NOT_STARTED
  | STARTING
  | STARTED
  | SUCCESS
  | FAILURE
  | CANCELING
  | CANCELED
deriving DecidableEq

/-- Modelled from the spec: the terminal states SUCCESS, FAILURE, CANCELED
(§3). -/
def RunStatus.isTerminal : RunStatus → Bool
  | RunStatus.SUCCESS => true
  | RunStatus.FAILURE => true
  | RunStatus.CANCELED => true
  | _ => false

/-- Modelled from the spec: the edges of the status state machine (§3):
STARTING → STARTED fires on first external confirmation that the worker is
running; STARTING/STARTED → FAILURE on worker or launch failure; CANCELING
is reachable from STARTING/STARTED; CANCELED only from CANCELING. -/
def allowedTransition : RunStatus → RunStatus → Bool
  | RunStatus.NOT_STARTED, RunStatus.STARTING => true
  | RunStatus.STARTING, RunStatus.STARTED => true
  | RunStatus.STARTING, RunStatus.FAILURE => true
  | RunStatus.STARTING, RunStatus.CANCELING => true
  | RunStatus.STARTED, RunStatus.SUCCESS => true
  | RunStatus.STARTED, RunStatus.FAILURE => true
  | RunStatus.STARTED, RunStatus.CANCELING => true
  | RunStatus.CANCELING, RunStatus.CANCELED => true
  | _, _ => false

/-- Modelled from the spec: the Run Store's atomic status transition
(§3, §5, §6) — a transition out of a terminal state is a no-op reported as
an invariant violation (the returned Bool); a transition not following the
state machine (a stale compare-and-swap) is discarded. The Run Store
implementation is not among the sampled sources. -/
def applyTransition (current target : RunStatus) : RunStatus × Bool :=
  if current.isTerminal then (current, true)
  else if allowedTransition current target then (target, false)
  else (current, false)

/-- Modelled from the spec: worker status values surfaced by the substrate
(§4.3, §6). -/
inductive WorkerStatus where
  | PENDING
  | RUNNING
  | SUCCEEDED
  | FAILED
  | NOT_FOUND
deriving DecidableEq

/-- Modelled from the spec: the tag key recording the resolved container
image on the run (§8 scenario: tags["docker_image"]); the constant's
definition is not among the sampled sources (the test references it as
DOCKER_IMAGE_TAG). -/
def DOCKER_IMAGE_TAG : String := "docker_image"

/-- Deterministic worker-handle (job name) derivation from the run id:
the integration test waits on the job named "dagster-run-%s" % run.run_id
(test_executor.py lines 75-77), and the spec (§3) requires a fixed prefix
plus the run id. -/
def jobNameForRun (run_id : String) : String := "dagster-run-" ++ run_id

/-- First-match lookup in the run's tag list. -/
def lookupTag : List (String × String) → String → Option String
  | [], _ => none
  | (k, v) :: rest, key => if key = k then some v else lookupTag rest key

/-- Membership test for a job name among the jobs visible on the
substrate. -/
def hasJob : List String → String → Bool
  | [], _ => false
  | j :: rest, h => if j = h then true else hasJob rest h

/-- Modelled from the spec: a run record (§3) — run id, the explicit
container image from run_config.execution.k8s.config.job_image when the
run configuration supplies one, tags, and lifecycle status. -/
structure Run where
  run_id : String
  explicitImage : Option String
  tags : List (String × String)
  status : RunStatus
deriving DecidableEq

/-- Modelled from the spec: the state the Launcher and Monitor operate on
for one run — the Run Store record, the recorded worker handle, the jobs
existing on the substrate, the log of every submit call ever made to the
substrate, and the worker deletions requested. -/
structure LauncherState where
  run : Run
  workerHandle : Option String
  substrateJobs : List String
  submissions : List String
  deletionRequests : List String
deriving DecidableEq

/-- Modelled from the spec: the Run Launcher's launch_run (§4.1) — the
K8sRunLauncher implementation is not among the sampled sources, only its
integration test is. (a) idempotency check: if a worker handle is already
recorded, return without re-submitting; (c) image resolution: the explicit
image when the run configuration supplies one, otherwise the code-location
origin's default image, here the `originImage` argument; then, per the
failure semantics of §4.1, the launcher re-checks the substrate for a
worker named after the run id before submitting, so a submission whose
response was lost is recorded rather than repeated; (e) submission;
(f) the worker handle and resolved image are persisted into the run's tags
and the status transitions to STARTING through the Run Store. -/
def launch_run (originImage : String) (s : LauncherState) : LauncherState :=
  match s.workerHandle with
  | some _ => s
  | none =>
    let image := s.run.explicitImage.getD originImage
    let handle := jobNameForRun s.run.run_id
    let run' : Run := { s.run with
      tags := (DOCKER_IMAGE_TAG, image) :: s.run.tags,
      status := (applyTransition s.run.status RunStatus.STARTING).1 }
    if hasJob s.substrateJobs handle then
      { s with workerHandle := some handle, run := run' }
    else
      { s with workerHandle := some handle, run := run',
               substrateJobs := s.substrateJobs ++ [handle],
               submissions := s.submissions ++ [handle] }

/-- Modelled from the spec: a launch attempt whose submission succeeds on
the substrate but whose response is lost before the client records it
(§4.1 failure semantics, §8 idempotent-launch property): the worker exists
on the substrate, but no worker handle, tag or status change is recorded
against the run. -/
def launch_run_lost_response (s : LauncherState) : LauncherState :=
  match s.workerHandle with
  | some _ => s
  | none =>
    let handle := jobNameForRun s.run.run_id
    if hasJob s.substrateJobs handle then s
    else
      { s with substrateJobs := s.substrateJobs ++ [handle],
               submissions := s.submissions ++ [handle] }

/-- Modelled from the spec: the Run Launcher's terminate (§4.1) — returns
false when no worker handle exists (nothing to terminate) rather than
raising; otherwise, when the run is not already terminal, requests
deletion of the worker on the substrate and optimistically transitions the
status to CANCELING immediately, without waiting for confirmation (the
Monitor later confirms CANCELED). -/
def terminate (s : LauncherState) : LauncherState × Bool :=
  match s.workerHandle with
  | none => (s, false)
  | some h =>
    if s.run.status.isTerminal then (s, false)
    else
      ({ s with
          run := { s.run with status := RunStatus.CANCELING },
          deletionRequests := s.deletionRequests ++ [h] }, true)

/-- Modelled from the spec: the status the Monitor wants to move the run to
after one health probe (§4.4): RUNNING confirms STARTING runs as STARTED;
SUCCEEDED resolves to SUCCESS; FAILED to FAILURE; NOT_FOUND while STARTING
is a launch failure only once the elapsed time since launch exceeds the
grace threshold, and is a transient condition left unchanged below it;
NOT_FOUND while CANCELING confirms CANCELED. -/
def monitorTarget (grace elapsed : Nat) (st : RunStatus) (ws : WorkerStatus) :
    Option RunStatus :=
  match ws with
  | WorkerStatus.PENDING => none
  | WorkerStatus.RUNNING =>
      if st = RunStatus.STARTING then some RunStatus.STARTED else none
  | WorkerStatus.SUCCEEDED => some RunStatus.SUCCESS
  | WorkerStatus.FAILED => some RunStatus.FAILURE
  | WorkerStatus.NOT_FOUND =>
      match st with
      | RunStatus.STARTING =>
          if grace < elapsed then some RunStatus.FAILURE else none
      | RunStatus.CANCELING => some RunStatus.CANCELED
      | _ => none

/-- Modelled from the spec: one Monitor reconciliation step for a run
(§4.4), writing through the Run Store's atomic transition; the Bool is the
invariant-violation report. -/
def monitorStep (grace elapsed : Nat) (st : RunStatus) (ws : WorkerStatus) :
    RunStatus × Bool :=
  match monitorTarget grace elapsed st ws with
  | none => (st, false)
  | some t => applyTransition st t

/-- Modelled from the spec: the operations the Launcher and Monitor perform
on a run's state (§4.1, §4.4): a launch, a launch whose response is lost,
a terminate request, and a Monitor cycle observing a worker status at a
given elapsed time since launch. -/
inductive LauncherOp where
  | launch (originImage : String)
  | launchLost
  | terminateRun
  | monitor (grace elapsed : Nat) (ws : WorkerStatus)

/-- Modelled from the spec: the effect of one Launcher/Monitor operation on
the run's state; the Monitor only polls runs with a recorded worker handle
(§4.4 step 1). -/
def stepOp : LauncherOp → LauncherState → LauncherState
  | LauncherOp.launch img, s => launch_run img s
  | LauncherOp.launchLost, s => launch_run_lost_response s
  | LauncherOp.terminateRun, s => (terminate s).1
  | LauncherOp.monitor g e ws, s =>
      if s.workerHandle.isSome then
        { s with run := { s.run with status := (monitorStep g e s.run.status ws).1 } }
      else s

/-- Modelled from the spec: a sequence of Launcher and Monitor operations
applied in order. -/
def runOps : List LauncherOp → LauncherState → LauncherState
  | [], s => s
  | op :: rest, s => runOps rest (stepOp op s)

/-- Modelled from the spec: the per-substrate launch configuration fields
exercised by the integration test (test_executor.py lines 38-48):
job_namespace, job_image, image_pull_policy, env_config_maps. The spec's
example fields namespace and env_sources correspond to job_namespace and
env_config_maps. -/
structure K8sConfig where
  job_namespace : Option String
  job_image : Option String
  image_pull_policy : Option String
  env_config_maps : Option (List String)
deriving DecidableEq

/-- Modelled from the spec: field-level merge of launcher defaults with the
per-run override block found in run_config.execution.k8s.config (§3, §6):
per-run values take precedence over launcher defaults field by field, not
as a whole-object replacement. -/
def mergeConfig (defaults overrides : K8sConfig) : K8sConfig :=
  { job_namespace := match overrides.job_namespace with
      | some v => some v
      | none => defaults.job_namespace,
    job_image := match overrides.job_image with
      | some v => some v
      | none => defaults.job_image,
    image_pull_policy := match overrides.image_pull_policy with
      | some v => some v
      | none => defaults.image_pull_policy,
    env_config_maps := match overrides.env_config_maps with
      | some v => some v
      | none => defaults.env_config_maps }

theorem monitorStep_terminal (g e : Nat) (st : RunStatus) (ws : WorkerStatus)
    (h : st.isTerminal = true) : (monitorStep g e st ws).1 = st := by
  unfold monitorStep
  cases ht : monitorTarget g e st ws with
  | none => rfl
  | some t => simp [applyTransition, h]

theorem stepOp_terminal (op : LauncherOp) (s : LauncherState)
    (h : s.run.status.isTerminal = true) : (stepOp op s).run.status = s.run.status := by
  cases op with
  | launch img =>
    cases hw : s.workerHandle with
    | some h' => simp [stepOp, launch_run, hw]
    | none =>
      simp only [stepOp, launch_run, hw]
      split <;> simp [applyTransition, h]
  | launchLost =>
    cases hw : s.workerHandle with
    | some h' => simp [stepOp, launch_run_lost_response, hw]
    | none =>
      simp only [stepOp, launch_run_lost_response, hw]
      split <;> rfl
  | terminateRun =>
    cases hw : s.workerHandle with
    | none => simp [stepOp, terminate, hw]
    | some h' => simp [stepOp, terminate, hw, h]
  | monitor g e ws =>
    cases hw : s.workerHandle with
    | none => simp [stepOp, hw]
    | some h' => simp [stepOp, hw, monitorStep_terminal g e s.run.status ws h]

theorem runOps_terminal (ops : List LauncherOp) : ∀ s : LauncherState,
    s.run.status.isTerminal = true → (runOps ops s).run.status = s.run.status := by
  induction ops with
  | nil => intro s _; rfl
  | cons op rest ih =>
    intro s h
    have h1 := stepOp_terminal op s h
    have h2 : (stepOp op s).run.status.isTerminal = true := by rw [h1]; exact h
    simp only [runOps]
    rw [ih (stepOp op s) h2, h1]

/-- C1: launch_run is idempotent — starting from a fresh run (no recorded
worker handle, nothing on the substrate), one launch records the worker
handle derived from the run id and submits exactly one worker; a second
launch is a no-op; a launch whose response was lost followed by a retry
still leaves exactly one submission and records the handle; and any
invocation on a state with a recorded worker handle returns without
re-submitting. -/
theorem launch_run_idempotent (r : Run) (origin : String) :
    (launch_run origin ⟨r, none, [], [], []⟩).workerHandle
      = some (jobNameForRun r.run_id)
    ∧ (launch_run origin ⟨r, none, [], [], []⟩).submissions = [jobNameForRun r.run_id]
    ∧ launch_run origin (launch_run origin ⟨r, none, [], [], []⟩)
        = launch_run origin ⟨r, none, [], [], []⟩
    ∧ (launch_run origin (launch_run_lost_response ⟨r, none, [], [], []⟩)).workerHandle
        = some (jobNameForRun r.run_id)
    ∧ (launch_run origin (launch_run_lost_response ⟨r, none, [], [], []⟩)).submissions
        = [jobNameForRun r.run_id]
    ∧ ∀ (s : LauncherState) (hdl : String),
        launch_run origin { s with workerHandle := some hdl }
          = { s with workerHandle := some hdl } := by
  refine ⟨rfl, rfl, rfl, ?_, ?_, fun s hdl => rfl⟩ <;>
    simp [launch_run, launch_run_lost_response, hasJob]

/-- C2: after a successful launch_run the run's tags contain the resolved
container image under the docker_image tag key, and the resolved image is
the explicitly configured image when the run configuration supplies one,
otherwise the default image of the pipeline's code-location origin. -/
theorem image_resolution (r : Run) (origin img : String) :
    lookupTag (launch_run origin
        ⟨{ r with explicitImage := some img }, none, [], [], []⟩).run.tags
        DOCKER_IMAGE_TAG = some img
    ∧ lookupTag (launch_run origin
        ⟨{ r with explicitImage := none }, none, [], [], []⟩).run.tags
        DOCKER_IMAGE_TAG = some origin := by
  constructor <;> simp [launch_run, lookupTag, hasJob]

/-- C3: run status transitions are monotonic — for every sequence of
Launcher and Monitor operations, once the run's status is terminal no
further transition occurs, and an attempted Run Store transition out of a
terminal state is a no-op reported as an invariant violation. -/
theorem monotonic_status (ops : List LauncherOp) (s : LauncherState)
    (target : RunStatus) :
    (s.run.status.isTerminal = true → (runOps ops s).run.status = s.run.status)
    ∧ (s.run.status.isTerminal = true →
        applyTransition s.run.status target = (s.run.status, true)) := by
  refine ⟨runOps_terminal ops s, fun h => ?_⟩
  simp [applyTransition, h]

theorem monotonic_status_witness :
    (runOps [LauncherOp.launch "img", LauncherOp.monitor 5 10 WorkerStatus.NOT_FOUND,
        LauncherOp.terminateRun]
      ⟨⟨"r", none, [], RunStatus.SUCCESS⟩, some "dagster-run-r", ["dagster-run-r"],
        ["dagster-run-r"], []⟩).run.status = RunStatus.SUCCESS
    ∧ applyTransition RunStatus.SUCCESS RunStatus.FAILURE = (RunStatus.SUCCESS, true) :=
  ⟨(monotonic_status [LauncherOp.launch "img",
      LauncherOp.monitor 5 10 WorkerStatus.NOT_FOUND, LauncherOp.terminateRun]
      ⟨⟨"r", none, [], RunStatus.SUCCESS⟩, some "dagster-run-r", ["dagster-run-r"],
        ["dagster-run-r"], []⟩ RunStatus.FAILURE).1 rfl,
   (monotonic_status []
      ⟨⟨"r", none, [], RunStatus.SUCCESS⟩, some "dagster-run-r", ["dagster-run-r"],
        ["dagster-run-r"], []⟩ RunStatus.FAILURE).2 rfl⟩

/-- C4: the effective launch configuration is a field-level merge — for
every pair of launcher defaults and per-run override, each field absent
from the override keeps its default value and each field present in the
override replaces the default; in particular merging defaults
(namespace "a", env sources ["x"]) with the override (namespace "b")
yields (namespace "b", env sources ["x"]). -/
theorem config_merge_field_level (d o : K8sConfig) (v : String) (l : List String) :
    (mergeConfig d { o with job_namespace := none }).job_namespace = d.job_namespace
    ∧ (mergeConfig d { o with job_namespace := some v }).job_namespace = some v
    ∧ (mergeConfig d { o with job_image := none }).job_image = d.job_image
    ∧ (mergeConfig d { o with job_image := some v }).job_image = some v
    ∧ (mergeConfig d { o with image_pull_policy := none }).image_pull_policy
        = d.image_pull_policy
    ∧ (mergeConfig d { o with image_pull_policy := some v }).image_pull_policy = some v
    ∧ (mergeConfig d { o with env_config_maps := none }).env_config_maps
        = d.env_config_maps
    ∧ (mergeConfig d { o with env_config_maps := some l }).env_config_maps = some l
    ∧ mergeConfig ⟨some "a", none, none, some ["x"]⟩ ⟨some "b", none, none, none⟩
        = ⟨some "b", none, none, some ["x"]⟩ :=
  ⟨rfl, rfl, rfl, rfl, rfl, rfl, rfl, rfl, rfl⟩

/-- C5: the worker handle is the fixed prefix "dagster-run-" followed by
the run id, a pure function of the run id, so launches of two runs with
the same run id record the same handle. -/
theorem worker_handle_deterministic (run_id : String) (r₁ r₂ : Run) (o₁ o₂ : String) :
    jobNameForRun run_id = "dagster-run-" ++ run_id
    ∧ (launch_run o₁ ⟨{ r₁ with run_id := run_id }, none, [], [], []⟩).workerHandle
        = some (jobNameForRun run_id)
    ∧ (launch_run o₁ ⟨{ r₁ with run_id := run_id }, none, [], [], []⟩).workerHandle
        = (launch_run o₂ ⟨{ r₂ with run_id := run_id }, none, [], [], []⟩).workerHandle :=
  ⟨rfl, rfl, rfl⟩

/-- C6: a Monitor probe returning NOT_FOUND for a STARTING run leaves the
status unchanged while the elapsed time since launch is below the grace
threshold (never by itself causing a transition), and deterministically
transitions the run to FAILURE once the elapsed time exceeds the
threshold. -/
theorem grace_threshold (grace elapsed : Nat) :
    (elapsed < grace →
      monitorStep grace elapsed RunStatus.STARTING WorkerStatus.NOT_FOUND
        = (RunStatus.STARTING, false))
    ∧ (grace < elapsed →
      monitorStep grace elapsed RunStatus.STARTING WorkerStatus.NOT_FOUND
        = (RunStatus.FAILURE, false)) := by
  constructor
  · intro h
    have hng : ¬ grace < elapsed := by omega
    simp [monitorStep, monitorTarget, hng]
  · intro h
    simp [monitorStep, monitorTarget, h, applyTransition, allowedTransition,
      RunStatus.isTerminal]

theorem grace_threshold_witness :
    monitorStep 5 3 RunStatus.STARTING WorkerStatus.NOT_FOUND
      = (RunStatus.STARTING, false)
    ∧ monitorStep 5 7 RunStatus.STARTING WorkerStatus.NOT_FOUND
      = (RunStatus.FAILURE, false) :=
  ⟨(grace_threshold 5 3).1 (by decide), (grace_threshold 5 7).2 (by decide)⟩

/-- C7: terminate returns false (without raising) whenever no worker handle
is recorded for the run; when a worker handle exists and the run is not
terminal, terminate requests deletion of the worker and immediately
transitions the run's status to CANCELING without waiting for
confirmation. -/
theorem terminate_contract (s : LauncherState) :
    (s.workerHandle = none → terminate s = (s, false))
    ∧ (∀ h : String, s.workerHandle = some h → s.run.status.isTerminal = false →
        (terminate s).1.run.status = RunStatus.CANCELING
        ∧ (terminate s).1.deletionRequests = s.deletionRequests ++ [h]) := by
  constructor
  · intro hw
    simp [terminate, hw]
  · intro h hw ht
    simp [terminate, hw, ht]

theorem terminate_contract_witness :
    terminate ⟨⟨"r1", none, [], RunStatus.NOT_STARTED⟩, none, [], [], []⟩
      = (⟨⟨"r1", none, [], RunStatus.NOT_STARTED⟩, none, [], [], []⟩, false)
    ∧ ((terminate ⟨⟨"r2", none, [], RunStatus.STARTED⟩, some "dagster-run-r2",
          ["dagster-run-r2"], ["dagster-run-r2"], []⟩).1.run.status
        = RunStatus.CANCELING
      ∧ (terminate ⟨⟨"r2", none, [], RunStatus.STARTED⟩, some "dagster-run-r2",
          ["dagster-run-r2"], ["dagster-run-r2"], []⟩).1.deletionRequests
        = [] ++ ["dagster-run-r2"]) :=
  ⟨(terminate_contract ⟨⟨"r1", none, [], RunStatus.NOT_STARTED⟩, none, [], [], []⟩).1 rfl,
   (terminate_contract ⟨⟨"r2", none, [], RunStatus.STARTED⟩, some "dagster-run-r2",
      ["dagster-run-r2"], ["dagster-run-r2"], []⟩).2 "dagster-run-r2" rfl rfl⟩

end DagsterSpec
